import Mathlib

/-
Shallow embedding of the unidown download manager (MR-eBook-Downloader).

The embedding covers the parts of the code the verified properties speak
about: the `LinkItem` value class (src/unidown/plugin/link_item.py), the
dict-based link-item collections and their merge `update_dict`, the
download verification pass `check_download`, the name-collision loop of
`download_as_file` (all src/unidown/plugin/a_plugin.py), the protobuf
savestate of src/unidown/plugins/data/save_state.py, and the savestate
loading logic of `APlugin.load_save_state`.

Python dicts are modelled as association lists (insertion ordered, keys
unique in every state a Python dict can reach); Python `None` is
`Option.none`; raised exceptions are `Except.error`; `datetime` values are
modelled by their (year, month, day, hour, minute, second, microsecond)
fields, which is exactly the information a naive datetime carries.
-/

/-- Naive `datetime.datetime` value: the seven calendar fields. -/
structure Datetime where
  year : Nat
  month : Nat
  day : Nat
  hour : Nat
  minute : Nat
  second : Nat
  microsecond : Nat
deriving DecidableEq, Repr

/-- The field tuple of a datetime, most significant first. -/
def Datetime.fields (d : Datetime) : List Nat :=
  [d.year, d.month, d.day, d.hour, d.minute, d.second, d.microsecond]

/-- Lexicographic strict comparison of equal-length field lists. -/
def natListLt : List Nat → List Nat → Bool
  | [], [] => false
  | [], _ :: _ => true
  | _ :: _, [] => false
  | a :: as, b :: bs => if a < b then true else if b < a then false else natListLt as bs

/-- Python `datetime` comparison `a < b`: lexicographic on the fields. -/
def Datetime.ltb (a b : Datetime) : Bool :=
  natListLt a.fields b.fields

/-- `datetime(1970, 1, 1)`, the epoch used as default `last_update`. -/
def epoch : Datetime := ⟨1970, 1, 1, 0, 0, 0, 0⟩

/-- Link item of src/unidown/plugin/link_item.py: a file name and an update
time. The class validates on construction and is structurally equal
(`__eq__` compares `_name` and `_time`). -/
structure LinkItem where
  name : String
  time : Datetime
deriving DecidableEq, Repr

/-- Embeds `LinkItem.__init__` (link_item.py): the `name` setter raises
`ValueError` when the name is `None` or the empty string, then the `time`
setter raises when the time is `None`; on success both fields are stored
unchanged. Python `None` arguments are modelled as `Option.none`. -/
def LinkItem.init (name : Option String) (time : Option Datetime) : Except String LinkItem :=
  match name with
  | none => .error "name cannot be empty or None."
  | some n =>
    if n = "" then .error "name cannot be empty or None."
    else
      match time with
      | none => .error "time cannot be None."
      | some t => .ok ⟨n, t⟩

/-- Python dict lookup `d[k]` / `k in d`, on the association-list model:
the value at the first entry carrying key `k`. -/
def dlookup {V : Type} (k : String) : List (String × V) → Option V
  | [] => none
  | p :: rest => if p.1 = k then some p.2 else dlookup k rest

/-- The key sequence of a dict. -/
def dkeys {V : Type} (l : List (String × V)) : List String :=
  l.map Prod.fst

/-- One assignment `base[k] = v` of CPython dict semantics: replace the
value at the existing entry for `k`, keeping its position, else append the
new entry at the end (insertion order preserved). -/
def dinsert {V : Type} : List (String × V) → String × V → List (String × V)
  | [], p => [p]
  | q :: rest, p => if q.1 = p.1 then p :: rest else q :: dinsert rest p

/-- Embeds `APlugin.update_dict` (a_plugin.py:395-409): the merge of the
savestate dicts is literally `base.update(new)` — every entry of `new` is
assigned into `base` in order; the item times are not consulted (the
info-level log line reads the dicts but does not change them). -/
def update_dict {V : Type} (base new : List (String × V)) : List (String × V) :=
  new.foldl dinsert base

/-- Embeds `APlugin.check_download` (a_plugin.py:188-209). The disk is
abstracted as the predicate `is_file` telling whether
`folder.joinpath(name).is_file()` holds; `succeed` keeps the entries whose
item name is a file, `lost` keeps the entries whose key is not in
`succeed`. -/
def check_download (link_item_dict : List (String × LinkItem)) (is_file : String → Bool) :
    List (String × LinkItem) × List (String × LinkItem) :=
  let succeed := link_item_dict.filter (fun kv => is_file kv.2.name)
  let lost := link_item_dict.filter (fun kv => (dlookup kv.1 succeed).isNone)
  (succeed, lost)

/-- PEP440 version of the `packaging` library, restricted to the plain
release-segment versions the repository uses (`'1'`, `'0.1.0'`, `'1.0.0'`). -/
structure PyVersion where
  release : List Nat
deriving DecidableEq, Repr

/-- Strip trailing zero segments, the normalisation `packaging.Version`
applies to the release tuple when comparing. -/
def stripZeros (l : List Nat) : List Nat :=
  (l.reverse.dropWhile (fun x => x == 0)).reverse

/-- `packaging.Version.__eq__` on two Version objects: release tuples
compare with trailing zeros removed (`Version('1') == Version('1.0')`). -/
def PyVersion.veq (a b : PyVersion) : Bool :=
  stripZeros a.release == stripZeros b.release

/-- Parse a decimal digit string, `None` when empty or non-digit. -/
def parseNat (s : String) : Option Nat :=
  if s.toList ≠ [] ∧ s.toList.all Char.isDigit then
    some (s.toList.foldl (fun acc c => acc * 10 + (c.toNat - 48)) 0)
  else none

/-- Split a character list at every dot, keeping empty segments
(`str.split('.')` semantics); `acc` holds the current segment reversed. -/
def splitOnDotAux : List Char → List Char → List String
  | [], acc => [String.mk acc.reverse]
  | c :: rest, acc =>
    if c = '.' then String.mk acc.reverse :: splitOnDotAux rest []
    else splitOnDotAux rest (c :: acc)

/-- `s.split('.')`. -/
def splitOnDot (s : String) : List String :=
  splitOnDotAux s.toList []

/-- `packaging.version.Version(s)` for plain release versions: split on
dots, each segment a decimal number; anything else raises InvalidVersion
(`Option.none`). -/
def PyVersion.parse (s : String) : Option PyVersion :=
  match (splitOnDot s).mapM parseNat with
  | some segs => some ⟨segs⟩
  | none => none

/-- `str(version)`: the release segments joined with dots. -/
def PyVersion.render (v : PyVersion) : String :=
  String.intercalate "." (v.release.map toString)

/-- Plugin identity descriptor (class `PluginInfo`): name, PEP440 version,
host. Once constructed all three fields are validated. -/
structure PluginInfo where
  name : String
  version : PyVersion
  host : String
deriving DecidableEq, Repr

/-- Modelled from the spec: `unidown/plugin/plugin_info.py` is absent from
src/ (only its test `tests/plugins/data/plugin_info_test.py` and its
callers are). Spec §3: "Validation fails at construction if name or host
is empty or version fails semantic-version parsing"; the error texts are
the ones the test asserts. -/
def PluginInfo.init (name version host : String) : Except String PluginInfo :=
  if name = "" then .error "Plugin name cannot be empty."
  else if host = "" then .error "Plugin host cannot be empty."
  else
    match PyVersion.parse version with
    | none => .error ("Plugin version is not PEP440 conform: " ++ version)
    | some v => .ok ⟨name, v, host⟩

/-- `PluginInfo.__eq__`: structural over name, version (packaging Version
equality) and host. -/
def PluginInfo.peq (a b : PluginInfo) : Bool :=
  a.name == b.name && PyVersion.veq a.version b.version && a.host == b.host

/-- A Python attribute that holds either a `packaging.Version` or a `str`
(the dynamic typing of the savestate `version` attribute). -/
inductive PyVerOrStr where
  | ver (v : PyVersion)
  | str (s : String)
deriving DecidableEq, Repr

/-- Python `==` on such a value: `Version.__eq__` returns NotImplemented
against a `str` (and `str.__eq__` against a Version), so Python falls back
to identity and the comparison is False across the two types. -/
def PyVerOrStr.pyEq : PyVerOrStr → PyVerOrStr → Bool
  | .ver a, .ver b => PyVersion.veq a b
  | .str a, .str b => a == b
  | _, _ => false

/-- `str(x)` on such a value. -/
def PyVerOrStr.pyStr : PyVerOrStr → String
  | .ver v => v.render
  | .str s => s

/-- Python dict `==` (unordered): the key sets agree and the values agree
key-wise under `veq`. -/
def dictPyEq {V : Type} (veq : V → V → Bool) (a b : List (String × V)) : Bool :=
  (a.all fun kv =>
    match dlookup kv.1 b with
    | some w => veq kv.2 w
    | none => false) &&
  (b.all fun kv => (dlookup kv.1 a).isSome)

/-- `unidown/plugins/data/exceptions.py`: `PluginException` carries a
message. -/
structure PluginException where
  msg : String
deriving DecidableEq, Repr

/-- Protobuf `LinkItemProto` message: name plus timestamp. The protobuf
`Timestamp` is an instant of microsecond precision, modelled by the
datetime it converts to and from. -/
structure LinkItemProto where
  name : String
  time : Datetime
deriving DecidableEq, Repr

/-- Protobuf `PluginInfoProto` message: three string fields. -/
structure PluginInfoProto where
  name : String
  version : String
  host : String
deriving DecidableEq, Repr

/-- Protobuf `SaveStateProto` message: version string, last-update
timestamp, plugin info and the data map. -/
structure SaveStateProto where
  version : String
  last_update : Datetime
  plugin_info : PluginInfoProto
  data : List (String × LinkItemProto)
deriving DecidableEq, Repr

/-- Modelled from the spec: `unidown/plugins/data/link_item.py`
(`LinkItem.to_protobuf`) is absent from src/; the protobuf entry renders
`{name, time}` of the item. -/
def LinkItem.to_protobuf (it : LinkItem) : LinkItemProto :=
  ⟨it.name, it.time⟩

/-- Modelled from the spec: `unidown/plugins/data/link_item.py`
(`LinkItem.from_protobuf`) is absent from src/; spec §4.2: each LinkItem is
reconstructed and "a missing `name` or `time` on an entry is a hard
validation failure", which the constructor validation enforces. -/
def LinkItem.from_protobuf (p : LinkItemProto) : Except String LinkItem :=
  LinkItem.init (some p.name) (some p.time)

/-- Modelled from the spec: `unidown/plugins/data/plugin_info.py`
(`PluginInfo.to_protobuf`) is absent from src/; it renders the triple with
the version as `str(version)`. -/
def PluginInfo.to_protobuf (info : PluginInfo) : PluginInfoProto :=
  ⟨info.name, info.version.render, info.host⟩

/-- Modelled from the spec: `unidown/plugins/data/plugin_info.py`
(`PluginInfo.from_protobuf`) is absent from src/; it rebuilds the triple
through the validating constructor. -/
def PluginInfo.from_protobuf (p : PluginInfoProto) : Except String PluginInfo :=
  PluginInfo.init p.name p.version p.host

namespace PluginsData

/-- Savestate class of src/unidown/plugins/data/save_state.py: version,
last update, plugin info and the link-item dict. The `version` attribute
is dynamically typed: the constructor stores whatever it receives
(`Version` from `_create_save_state`, `str` from `from_protobuf`). -/
structure SaveState where
  plugin_info : PluginInfo
  version : PyVerOrStr
  last_update : Datetime
  link_item_dict : List (String × LinkItem)
deriving DecidableEq, Repr

/-- Embeds `SaveState.__eq__` (save_state.py): structural over
plugin_info, link_item_dict (Python dict equality with LinkItem equality),
version and last_update. -/
def SaveState.pyEq (a b : SaveState) : Bool :=
  PluginInfo.peq a.plugin_info b.plugin_info &&
  dictPyEq (fun x y : LinkItem => x == y) a.link_item_dict b.link_item_dict &&
  PyVerOrStr.pyEq a.version b.version && a.last_update == b.last_update

/-- Embeds `SaveState.to_protobuf` (save_state.py:46-57):
`result.version = str(self.version)`, the last update through
`datetime_to_timestamp`, the plugin info and every link item through their
`to_protobuf`. -/
def SaveState.to_protobuf (s : SaveState) : SaveStateProto :=
  ⟨s.version.pyStr, s.last_update, s.plugin_info.to_protobuf,
    s.link_item_dict.map (fun kv => (kv.1, kv.2.to_protobuf))⟩

/-- Embeds `SaveState.from_protobuf` (save_state.py:31-44): the data dict
is rebuilt entry-wise, then `cls(proto.version, ...)` is called —
`proto.version` is passed through as the raw protobuf string, it is never
parsed back into a `Version`. -/
def SaveState.from_protobuf (p : SaveStateProto) : Except String SaveState := do
  let data ← p.data.mapM (fun kv => do
    let it ← LinkItem.from_protobuf kv.2
    return (kv.1, it))
  let info ← PluginInfo.from_protobuf p.plugin_info
  return ⟨info, .str p.version, p.last_update, data⟩

end PluginsData

namespace PluginSave

/-- Modelled from the spec: `unidown/plugin/save_state.py` (the SaveState
class `APlugin` imports) is absent from src/ — only its caller
`a_plugin.py` is. Spec §3: "SaveState: {format_version: semantic version
constant, plugin_info: PluginInfo, last_update: timestamp, link_items:
LinkItemCollection}", with the field order matching the call sites
`SaveState(version, info, last_update, dict)` in a_plugin.py. -/
structure SaveState where
  version : PyVersion
  plugin_info : PluginInfo
  last_update : Datetime
  link_item_dict : List (String × LinkItem)
deriving DecidableEq, Repr

/-- Modelled from the spec: the engine's savestate-format constant
`dynamic_data.SAVE_STATE_VERSION`; both eras of the code pin it to
`Version('1')` (src/unidown/dynamic_data.py: `SAVESTATE_VERSION =
Version('1')`). -/
def SAVE_STATE_VERSION : PyVersion := ⟨[1]⟩

/-- The JSON record of a savestate file as `json_format.Parse` sees it for
a `SaveStateProto`: each top-level field may be absent (`none`), in which
case proto3 fills the default value. A file holding `{}` is the record
with every field absent. -/
structure SaveStateRecord where
  version : Option String
  plugin_info : Option PluginInfoProto
  last_update : Option Datetime
  data : Option (List (String × LinkItemProto))
deriving DecidableEq, Repr

/-- `json_format.Parse` semantics on a well-typed record: absent fields
become the proto3 defaults (empty string, epoch timestamp, empty message,
empty map). -/
def SaveStateRecord.toProto (r : SaveStateRecord) : SaveStateProto :=
  ⟨r.version.getD "", r.last_update.getD epoch, r.plugin_info.getD ⟨"", "", ""⟩,
    r.data.getD []⟩

/-- Modelled from the spec: `SaveState.from_protobuf` of
`unidown/plugin/save_state.py` is absent from src/. Spec §4.2 (stricter
protobuf-era semantics): the deserializer rebuilds every link item through
the validating constructor, rejects a missing or unparseable format
version (`ValueError`), and rebuilds the plugin info through its
validating constructor. -/
def SaveState.from_protobuf (p : SaveStateProto) : Except String SaveState := do
  let data ← p.data.mapM (fun kv => do
    let it ← LinkItem.from_protobuf kv.2
    return (kv.1, it))
  if p.version = "" then
    .error "version of save state does not exist or is empty inside the protobuf."
  else
    match PyVersion.parse p.version with
    | none => .error ("Not PEP440 conform version inside the save state: " ++ p.version)
    | some v => do
      let info ← PluginInfo.from_protobuf p.plugin_info
      return ⟨v, info, p.last_update, data⟩

/-- Embeds `APlugin.load_save_state` (a_plugin.py:326-368). The savestate
file is `none` when absent from disk, `some (.error e)` when its text is
not parseable as a `SaveStateProto` JSON (the `ParseError` branch), and
`some (.ok r)` when it parses to the record `r`. A missing file is no
error: a fresh savestate with the engine version, the running plugin's
info, epoch last update and an empty dict is returned. Otherwise the
protobuf is converted (ValueError becomes a PluginException), then the
savestate version, the plugin version and the plugin name are checked in
that order. -/
def load_save_state (file : Option (Except String SaveStateRecord)) (info : PluginInfo) :
    Except PluginException SaveState :=
  match file with
  | none => .ok ⟨SAVE_STATE_VERSION, info, epoch, []⟩
  | some (.error _) =>
    .error ⟨"Broken savestate json. Please fix or delete (you may lose data in this case) the file."⟩
  | some (.ok r) =>
    match SaveState.from_protobuf r.toProto with
    | .error msg => .error ⟨"Could not parse the protobuf: " ++ msg⟩
    | .ok save_state =>
      if ¬ PyVersion.veq save_state.version SAVE_STATE_VERSION then
        .error ⟨"Different save state version handling is not implemented yet."⟩
      else if ¬ PyVersion.veq save_state.plugin_info.version info.version then
        .error ⟨"Different plugin version handling is not implemented yet."⟩
      else if save_state.plugin_info.name ≠ info.name then
        .error ⟨"Save state plugin (" ++ save_state.plugin_info.name ++
          ") does not match the current (" ++ info.name ++ ")."⟩
      else .ok save_state

end PluginSave

namespace JsonSave

/-- The `meta` sub-record of the JSON savestate wire format. -/
structure MetaJson where
  version : Option String
deriving DecidableEq, Repr

/-- A link-item entry of the JSON wire format, as `LinkItem.from_json`
(src/unidown/plugin/link_item.py) receives it: a `name` and a `time` key,
either of which may be absent. The `time` value is the
`YYYYMMDDThhmmss.ffffffZ` rendering of an instant, which is bijective on
instants of microsecond precision, so the field is modelled by the parsed
instant. -/
structure LinkItemJson where
  name : Option String
  time : Option Datetime
deriving DecidableEq, Repr

/-- Embeds `LinkItem.from_json` (src/unidown/plugin/link_item.py:26-38):
raise if the `name` key is missing, raise if the `time` key is missing,
then construct through the validating constructor. -/
def LinkItem.from_json (d : LinkItemJson) : Except String LinkItem :=
  match d.name with
  | none => .error "name is missing"
  | some n =>
    match d.time with
    | none => .error "time is missing"
    | some t => LinkItem.init (some n) (some t)

/-- A parsed JSON savestate record; each top-level key may be absent.
`username` is the extension field the `MySaveState` subclass
(src/test-plugin/unidown_test/savestate.py) appends to the same top-level
record. -/
structure SaveStateJson where
  meta : Option MetaJson
  pluginInfo : Option PluginInfoProto
  lastUpdate : Option Datetime
  linkItems : Option (List (String × LinkItemJson))
  username : Option String
deriving DecidableEq, Repr

/-- Savestate value of the JSON era. Modelled from the spec:
`unidown/plugin/savestate.py` is absent from src/ (only its subclass
`MySaveState` and its tests are); spec §3 gives the fields. -/
structure SaveState where
  plugin_info : PluginInfo
  last_update : Datetime
  link_items : List (String × LinkItem)
deriving DecidableEq, Repr

/-- Modelled from the spec: `SaveState.from_json` of
`unidown/plugin/savestate.py` is absent from src/ (only its overriding
subclass is). Spec §4.2: "fail with a `MalformedSaveState` error if the
payload is not valid structured data or is missing required top-level keys
(`meta`, `pluginInfo`, `lastUpdate`, `linkItems`)"; every link item is
reconstructed through `LinkItem.from_json` and a bad entry is a hard
failure. -/
def SaveState.from_json (d : SaveStateJson) : Except String SaveState :=
  match d.meta with
  | none => .error "missing key: meta"
  | some _ =>
    match d.pluginInfo with
    | none => .error "missing key: pluginInfo"
    | some pi =>
      match d.lastUpdate with
      | none => .error "missing key: lastUpdate"
      | some lu =>
        match d.linkItems with
        | none => .error "missing key: linkItems"
        | some itemsJson => do
          let info ← PluginInfo.init pi.name pi.version pi.host
          let items ← itemsJson.mapM (fun kv => do
            let it ← LinkItem.from_json kv.2
            return (kv.1, it))
          return ⟨info, lu, items⟩

/-- Embeds the JSON-era `APlugin.load_savestate` around `from_json`, per
spec §4.2 and the tests `test_json_error` / `test_json_error_2`: a file
whose text is not valid JSON (`some (.error e)`) raises a
PluginException, and a record `from_json` rejects raises a
PluginException; a savestate value is only returned when deserialization
fully succeeds. -/
def load_savestate (file : Option (Except String SaveStateJson)) (info : PluginInfo) :
    Except PluginException SaveState :=
  match file with
  | none => .ok ⟨info, epoch, []⟩
  | some (.error _) => .error ⟨"Broken savestate json."⟩
  | some (.ok d) =>
    match SaveState.from_json d with
    | .error msg => .error ⟨"Malformed savestate: " ++ msg⟩
    | .ok savestate =>
      if savestate.plugin_info.name ≠ info.name then
        .error ⟨"Save state plugin (" ++ savestate.plugin_info.name ++
          ") does not match the current (" ++ info.name ++ ")."⟩
      else .ok savestate

end JsonSave

/-- The `while folder.joinpath(name).exists(): name = name + '_d'` loop of
`APlugin.download_as_file` (a_plugin.py:229-258), with explicit fuel: as
long as the current name exists in the folder, append `_d`. The folder
content is the list of file names present. -/
def resolveName : Nat → List String → String → String
  | 0, _, name => name
  | fuel + 1, disk, name =>
    if name ∈ disk then resolveName fuel disk (name ++ "_d") else name

/-- Loop variant for `resolveName`: the number of files at least as long
as the candidate name. It strictly drops on every iteration, so
`collisionCount + 1` fuel always reaches the loop's exit. -/
def collisionCount (disk : List String) (name : String) : Nat :=
  (disk.filter (fun s => decide (name.length ≤ s.length))).length

/-- The file name `download_as_file` actually writes to: the first name in
`name, name_d, name_d_d, ...` that does not yet exist in the folder. -/
def writtenName (disk : List String) (name : String) : String :=
  resolveName (collisionCount disk name + 1) disk name

/-- One successful `download_as_file` call: the target folder gains the
resolved file name (the HTTP 200 branch writes `reader.data` there). -/
def download_step (disk : List String) (name : String) : List String :=
  disk ++ [writtenName disk name]

/-- A Python heap fragment for the `update_dict` call: dict objects
indexed by reference. -/
def DictHeap := Nat → List (String × LinkItem)

/-- Embeds the effect of `APlugin.update_dict` on the heap: the body runs
`base.update(new)`, and `dict.update` is a method of the receiver — the
only reference written is `baseRef`. -/
def update_dict_heap (heap : DictHeap) (baseRef newRef : Nat) : DictHeap :=
  fun a => if a = baseRef then update_dict (heap baseRef) (heap newRef) else heap a

/-- The two-item collection of the verification scenario
(tests/plugin/a_plugin_test.py `eg_data`): item One of 2001-01-01T01:01:01
and item Two of 2002-02-02T02:02:02. -/
def egData : List (String × LinkItem) :=
  [("/IceflowRE/unidown/master/README.rst", ⟨"One", ⟨2001, 1, 1, 1, 1, 1, 0⟩⟩),
   ("/IceflowRE/unidown/master/missing", ⟨"Two", ⟨2002, 2, 2, 2, 2, 2, 0⟩⟩)]

theorem dlookup_mem_dkeys {V : Type} {l : List (String × V)} {k : String} {v : V}
    (h : dlookup k l = some v) : k ∈ dkeys l := by
  induction l with
  | nil => simp [dlookup] at h
  | cons p rest ih =>
    rw [dlookup] at h
    by_cases hp : p.1 = k
    · simp [dkeys, hp.symm]
    · simp only [if_neg hp] at h
      simp [dkeys] at ih ⊢
      exact Or.inr (ih h)

theorem dlookup_dinsert {V : Type} (b : List (String × V)) (p : String × V) (k : String) :
    dlookup k (dinsert b p) = if p.1 = k then some p.2 else dlookup k b := by
  induction b with
  | nil => simp [dinsert, dlookup]
  | cons q rest ih =>
    by_cases hqp : q.1 = p.1
    · rw [dinsert, if_pos hqp, dlookup, dlookup]
      by_cases hpk : p.1 = k
      · simp [hpk]
      · have hqk : ¬ q.1 = k := by rw [hqp]; exact hpk
        simp [hpk, hqk]
    · rw [dinsert, if_neg hqp, dlookup, dlookup, ih]
      by_cases hqk : q.1 = k
      · have hpk : ¬ p.1 = k := by rw [← hqk]; exact fun h => hqp h.symm
        simp [hqk, hpk]
      · simp [hqk]

theorem dlookup_update_dict {V : Type} (b n : List (String × V)) (hn : (dkeys n).Nodup)
    (k : String) :
    dlookup k (update_dict b n) =
      match dlookup k n with
      | some v => some v
      | none => dlookup k b := by
  induction n generalizing b with
  | nil => simp [update_dict, dlookup]
  | cons p rest ih =>
    rw [dkeys, List.map_cons, List.nodup_cons] at hn
    have step : update_dict b (p :: rest) = update_dict (dinsert b p) rest := rfl
    rw [step, ih (dinsert b p) hn.2, dlookup]
    by_cases hpk : p.1 = k
    · have hrest : dlookup k rest = none := by
        cases hlook : dlookup k rest with
        | none => rfl
        | some v =>
          exact absurd (hpk ▸ dlookup_mem_dkeys hlook) hn.1
      simp [hpk, hrest, dlookup_dinsert]
    · cases hlook : dlookup k rest with
      | none => simp [hlook, dlookup_dinsert, hpk]
      | some v => simp [hlook, hpk]

theorem dlookup_filter {V : Type} (p : String × V → Bool) (l : List (String × V))
    (hl : (dkeys l).Nodup) (k : String) :
    dlookup k (l.filter p) =
      match dlookup k l with
      | some v => if p (k, v) then some v else none
      | none => none := by
  induction l with
  | nil => simp [dlookup]
  | cons q rest ih =>
    rw [dkeys, List.map_cons, List.nodup_cons] at hl
    rw [List.filter_cons, dlookup]
    by_cases hqk : q.1 = k
    · have hrest : dlookup k rest = none := by
        cases hlook : dlookup k rest with
        | none => rfl
        | some v => exact absurd (hqk ▸ dlookup_mem_dkeys hlook) hl.1
      have hq : (k, q.2) = q := by rw [← hqk]
      by_cases hpq : p q
      · simp [hpq, hqk, dlookup, hq]
      · simp [hpq, ih hl.2, hrest, hqk, hq]
    · by_cases hpq : p q
      · simp [hpq, dlookup, hqk, ih hl.2]
      · simp [hpq, ih hl.2, hqk]

/-- Claim C1 counterexample: a base entry whose time (2001-01-01) is
strictly newer than the new item's time (2000-01-01) is NOT left
unchanged — `update_dict` replaces it with the older new item, because
the merge is an unconditional `base.update(new)`. -/
theorem c1_counterexample :
    Datetime.ltb ⟨2000, 1, 1, 0, 0, 0, 0⟩ ⟨2001, 1, 1, 0, 0, 0, 0⟩ = true ∧
    dlookup "k" (update_dict
        [("k", (⟨"base", ⟨2001, 1, 1, 0, 0, 0, 0⟩⟩ : LinkItem))]
        [("k", (⟨"new", ⟨2000, 1, 1, 0, 0, 0, 0⟩⟩ : LinkItem))]) =
      some ⟨"new", ⟨2000, 1, 1, 0, 0, 0, 0⟩⟩ ∧
    (dlookup "k" (update_dict
        [("k", (⟨"base", ⟨2001, 1, 1, 0, 0, 0, 0⟩⟩ : LinkItem))]
        [("k", (⟨"new", ⟨2000, 1, 1, 0, 0, 0, 0⟩⟩ : LinkItem))]) ==
      dlookup "k" [("k", (⟨"base", ⟨2001, 1, 1, 0, 0, 0, 0⟩⟩ : LinkItem))]) = false := by
  refine ⟨rfl, rfl, ?_⟩
  decide

/-- Claim C1 (amended): for every base collection and every `new`
collection (locators unique, as in every Python dict), `update_dict`
replaces a base entry exactly when its locator is present in `new` — the
new item is taken regardless of any time comparison — and entries present
only in the base are always retained untouched. -/
theorem c1_actualize (base new : List (String × LinkItem))
    (hn : (dkeys new).Nodup) (k : String) :
    dlookup k (update_dict base new) =
      match dlookup k new with
      | some v => some v
      | none => dlookup k base := by
  rw [dlookup_update_dict base new hn]
  cases dlookup k new <;> rfl

/-- Witness for `c1_actualize` at a concrete input: a base-only entry is
retained. -/
theorem c1_actualize_witness :
    dlookup "a" (update_dict
        [("a", (⟨"base", ⟨2001, 1, 1, 0, 0, 0, 0⟩⟩ : LinkItem))]
        [("b", (⟨"new", ⟨2000, 1, 1, 0, 0, 0, 0⟩⟩ : LinkItem))]) =
      some ⟨"base", ⟨2001, 1, 1, 0, 0, 0, 0⟩⟩ :=
  Eq.trans
    (c1_actualize
      [("a", ⟨"base", ⟨2001, 1, 1, 0, 0, 0, 0⟩⟩)]
      [("b", ⟨"new", ⟨2000, 1, 1, 0, 0, 0, 0⟩⟩)] (by decide) "a")
    (by decide)

/-- Claim C8: `update_dict` is idempotent — applying the same `new` a
second time leaves the base dict with exactly the key-value map it had
after the first application (Python dict `==` compares dicts key-wise). -/
theorem c8_idempotent (base new : List (String × LinkItem))
    (hn : (dkeys new).Nodup) (k : String) :
    dlookup k (update_dict (update_dict base new) new) =
      dlookup k (update_dict base new) := by
  rw [dlookup_update_dict _ _ hn, dlookup_update_dict _ _ hn]
  cases dlookup k new <;> simp

/-- Witness for `c8_idempotent` at a concrete input. -/
theorem c8_idempotent_witness :
    dlookup "k" (update_dict (update_dict
        [("k", (⟨"base", ⟨2001, 1, 1, 0, 0, 0, 0⟩⟩ : LinkItem))]
        [("k", (⟨"new", ⟨2000, 1, 1, 0, 0, 0, 0⟩⟩ : LinkItem)),
         ("j", ⟨"other", ⟨2002, 1, 1, 0, 0, 0, 0⟩⟩)])
        [("k", ⟨"new", ⟨2000, 1, 1, 0, 0, 0, 0⟩⟩),
         ("j", ⟨"other", ⟨2002, 1, 1, 0, 0, 0, 0⟩⟩)]) =
      dlookup "k" (update_dict
        [("k", ⟨"base", ⟨2001, 1, 1, 0, 0, 0, 0⟩⟩)]
        [("k", ⟨"new", ⟨2000, 1, 1, 0, 0, 0, 0⟩⟩),
         ("j", ⟨"other", ⟨2002, 1, 1, 0, 0, 0, 0⟩⟩)]) :=
  c8_idempotent
    [("k", ⟨"base", ⟨2001, 1, 1, 0, 0, 0, 0⟩⟩)]
    [("k", ⟨"new", ⟨2000, 1, 1, 0, 0, 0, 0⟩⟩),
     ("j", ⟨"other", ⟨2002, 1, 1, 0, 0, 0, 0⟩⟩)] (by decide) "k"

/-- Claim C10: `update_dict` never modifies its `new` argument — on the
heap model, writing the merged dict to the base reference leaves every
other reference, in particular the one holding `new`, unchanged. -/
theorem c10_frame (heap : DictHeap) (baseRef newRef : Nat)
    (hne : newRef ≠ baseRef) :
    update_dict_heap heap baseRef newRef newRef = heap newRef := by
  simp [update_dict_heap, hne]

/-- Witness for `c10_frame` at a concrete heap. -/
theorem c10_frame_witness :
    update_dict_heap
      (fun a => if a = 0 then [("k", (⟨"base", ⟨2001, 1, 1, 0, 0, 0, 0⟩⟩ : LinkItem))]
       else [("k", ⟨"new", ⟨2000, 1, 1, 0, 0, 0, 0⟩⟩)]) 0 1 1 =
      [("k", ⟨"new", ⟨2000, 1, 1, 0, 0, 0, 0⟩⟩)] :=
  c10_frame
    (fun a => if a = 0 then [("k", ⟨"base", ⟨2001, 1, 1, 0, 0, 0, 0⟩⟩)]
     else [("k", ⟨"new", ⟨2000, 1, 1, 0, 0, 0, 0⟩⟩)]) 0 1 (by decide)

/-- Claim C2: when no savestate file exists on disk, `load_save_state`
raises nothing and returns a fresh savestate with the engine's
savestate-format constant, the running plugin's info, epoch
(1970-01-01) as last update and an empty link-item dict. -/
theorem c2_first_run (info : PluginInfo) :
    PluginSave.load_save_state none info =
      .ok ⟨PluginSave.SAVE_STATE_VERSION, info, epoch, []⟩ :=
  rfl

/-- Claim C9: loading a well-formed savestate whose stored plugin version
differs from the running plugin's version fails with a PluginException,
even when the savestate-format version and the plugin name both match the
current plugin. -/
theorem c9_version_mismatch (r : PluginSave.SaveStateRecord) (info : PluginInfo)
    (ss : PluginSave.SaveState)
    (hparse : PluginSave.SaveState.from_protobuf r.toProto = .ok ss)
    (hver : PyVersion.veq ss.version PluginSave.SAVE_STATE_VERSION = true)
    (hname : ss.plugin_info.name = info.name)
    (hpv : PyVersion.veq ss.plugin_info.version info.version = false) :
    PluginSave.load_save_state (some (.ok r)) info =
      .error ⟨"Different plugin version handling is not implemented yet."⟩ := by
  simp only [PluginSave.load_save_state]
  rw [hparse]
  simp [hver, hpv]

/-- Witness for `c9_version_mismatch`: a savestate of format version 1 for
plugin `test` version 2.0.0, loaded by plugin `test` version 1.0.0. -/
theorem c9_version_mismatch_witness :
    PluginSave.load_save_state
      (some (.ok ⟨some "1", some ⟨"test", "2.0.0", "example.com"⟩, some epoch, some []⟩))
      ⟨"test", ⟨[1, 0, 0]⟩, "example.com"⟩ =
      .error ⟨"Different plugin version handling is not implemented yet."⟩ :=
  c9_version_mismatch
    ⟨some "1", some ⟨"test", "2.0.0", "example.com"⟩, some epoch, some []⟩
    ⟨"test", ⟨[1, 0, 0]⟩, "example.com"⟩
    ⟨⟨[1]⟩, ⟨"test", ⟨[2, 0, 0]⟩, "example.com"⟩, epoch, []⟩
    rfl (by decide) rfl (by decide)

/-- Claim C6: `LinkItem` construction fails with a validation error
exactly when the name is `None` or empty or the time is `None`, and on
every other input it succeeds with the given name and time stored
unchanged. -/
theorem c6_linkitem_validation (name : Option String) (time : Option Datetime) :
    ((LinkItem.init name time).isOk = false ↔
      (name = none ∨ name = some "" ∨ time = none)) ∧
    (∀ n t, name = some n → n ≠ "" → time = some t →
      LinkItem.init name time = .ok ⟨n, t⟩) := by
  constructor
  · cases name with
    | none => simp [LinkItem.init, Except.isOk, Except.toBool]
    | some n =>
      by_cases hn : n = ""
      · simp [LinkItem.init, hn, Except.isOk, Except.toBool]
      · cases time with
        | none => simp [LinkItem.init, hn, Except.isOk, Except.toBool]
        | some t => simp [LinkItem.init, hn, Except.isOk, Except.toBool]
  · intro n t hn hne ht
    subst hn
    subst ht
    simp [LinkItem.init, hne]

/-- Witness for `c6_linkitem_validation`: a valid construction succeeds
unchanged and an empty name is rejected. -/
theorem c6_linkitem_validation_witness :
    LinkItem.init (some "One") (some ⟨2001, 1, 1, 1, 1, 1, 0⟩) =
      .ok ⟨"One", ⟨2001, 1, 1, 1, 1, 1, 0⟩⟩ ∧
    (LinkItem.init (some "") (some ⟨2001, 1, 1, 1, 1, 1, 0⟩)).isOk = false :=
  ⟨(c6_linkitem_validation (some "One") (some ⟨2001, 1, 1, 1, 1, 1, 0⟩)).2
      "One" ⟨2001, 1, 1, 1, 1, 1, 0⟩ rfl (by decide) rfl,
   (c6_linkitem_validation (some "") (some ⟨2001, 1, 1, 1, 1, 1, 0⟩)).1.mpr
      (Or.inr (Or.inl rfl))⟩

/-- Claim C5: `check_download` partitions the expected collection
exhaustively and disjointly — every expected entry lands in exactly one of
(succeed, lost), it lands in succeed exactly when a file with the item's
name exists in the folder — and on the concrete two-item scenario with
only file "One" present it returns ({A}, {B}). -/
theorem c5_partition (d : List (String × LinkItem)) (is_file : String → Bool)
    (hd : (dkeys d).Nodup) :
    (∀ k, dlookup k d =
        (match dlookup k (check_download d is_file).1 with
         | some v => some v
         | none => dlookup k (check_download d is_file).2)) ∧
    (∀ k, (dlookup k (check_download d is_file).1).isSome = true →
        dlookup k (check_download d is_file).2 = none) ∧
    (∀ k v, dlookup k (check_download d is_file).1 = some v ↔
        (dlookup k d = some v ∧ is_file v.name = true)) ∧
    check_download egData (fun n => n == "One") =
      ([("/IceflowRE/unidown/master/README.rst", ⟨"One", ⟨2001, 1, 1, 1, 1, 1, 0⟩⟩)],
       [("/IceflowRE/unidown/master/missing", ⟨"Two", ⟨2002, 2, 2, 2, 2, 2, 0⟩⟩)]) := by
  have hs : ∀ k, dlookup k (check_download d is_file).1 =
      match dlookup k d with
      | some v => if is_file v.name then some v else none
      | none => none := by
    intro k
    rw [show (check_download d is_file).1 =
        List.filter (fun kv => is_file kv.2.name) d from rfl,
      dlookup_filter _ d hd k]
    cases dlookup k d with
    | none => rfl
    | some v => rfl
  have hl : ∀ k, dlookup k (check_download d is_file).2 =
      match dlookup k d with
      | some v => if is_file v.name then none else some v
      | none => none := by
    intro k
    rw [show (check_download d is_file).2 =
        List.filter
          (fun kv => (dlookup kv.1 (check_download d is_file).1).isNone) d from rfl,
      dlookup_filter _ d hd k]
    cases hkd : dlookup k d with
    | none => rfl
    | some v => cases hf : is_file v.name <;> simp [hs k, hkd, hf]
  refine ⟨?_, ?_, ?_, ?_⟩
  · intro k
    rw [hs k, hl k]
    cases dlookup k d with
    | none => rfl
    | some v => cases hf : is_file v.name <;> simp [hf]
  · intro k h
    rw [hl k]
    rw [hs k] at h
    revert h
    cases dlookup k d with
    | none => intro h; rfl
    | some v =>
      intro h
      cases hf : is_file v.name
      · simp [hf] at h
      · simp [hf]
  · intro k v
    constructor
    · intro h
      rw [hs k] at h
      revert h
      cases hkd : dlookup k d with
      | none => intro h; simp at h
      | some w =>
        intro h
        cases hf : is_file w.name
        · simp [hf] at h
        · simp [hf] at h
          subst h
          exact ⟨rfl, hf⟩
    · rintro ⟨hkd, hf⟩
      rw [hs k, hkd]
      simp [hf]
  · rfl

/-- Witness for `c5_partition` at the concrete two-item scenario. -/
theorem c5_partition_witness :
    dlookup "/IceflowRE/unidown/master/README.rst"
        (check_download egData (fun n => n == "One")).1 =
      some ⟨"One", ⟨2001, 1, 1, 1, 1, 1, 0⟩⟩ :=
  ((c5_partition egData (fun n => n == "One") (by decide)).2.2.1
      "/IceflowRE/unidown/master/README.rst" ⟨"One", ⟨2001, 1, 1, 1, 1, 1, 0⟩⟩).mpr
    ⟨by decide, by decide⟩

theorem from_json_missing_key (d : JsonSave.SaveStateJson)
    (h : d.meta = none ∨ d.pluginInfo = none ∨ d.lastUpdate = none ∨
      d.linkItems = none) :
    ∃ e, JsonSave.SaveState.from_json d = .error e := by
  obtain ⟨m, pinfo, lu, li, u⟩ := d
  cases m with
  | none => exact ⟨_, rfl⟩
  | some mv =>
    cases pinfo with
    | none => exact ⟨_, rfl⟩
    | some pv =>
      cases lu with
      | none => exact ⟨_, rfl⟩
      | some luv =>
        cases li with
        | none => exact ⟨_, rfl⟩
        | some lv => simp at h

/-- Claim C4: loading a savestate file whose content is not valid JSON, or
whose record misses one of the required top-level keys (`meta`,
`pluginInfo`, `lastUpdate`, `linkItems`) — in particular the record of a
file holding merely `{}` — always fails with an error and never yields a
default-populated savestate. -/
theorem c4_malformed (badJson : String) (d : JsonSave.SaveStateJson)
    (info : PluginInfo)
    (h : d.meta = none ∨ d.pluginInfo = none ∨ d.lastUpdate = none ∨
      d.linkItems = none) :
    (∃ e, JsonSave.load_savestate (some (.error badJson)) info = .error e) ∧
    (∃ e, JsonSave.load_savestate (some (.ok d)) info = .error e) := by
  constructor
  · exact ⟨_, rfl⟩
  · obtain ⟨msg, hmsg⟩ := from_json_missing_key d h
    refine ⟨⟨"Malformed savestate: " ++ msg⟩, ?_⟩
    simp only [JsonSave.load_savestate]
    rw [hmsg]

/-- Witness for `c4_malformed`: the record of a `{}` savestate file. -/
theorem c4_malformed_witness :
    ∃ e, JsonSave.load_savestate
      (some (.ok ⟨none, none, none, none, none⟩))
      ⟨"test", ⟨[1, 0, 0]⟩, "example.com"⟩ = .error e :=
  (c4_malformed "no json" ⟨none, none, none, none, none⟩
    ⟨"test", ⟨[1, 0, 0]⟩, "example.com"⟩ (Or.inl rfl)).2

/-- A valid savestate as `APlugin._create_save_state` builds it: the
`version` attribute holds the `packaging.Version` constant, the rest are
validated values. -/
def c3Input : PluginsData.SaveState :=
  ⟨⟨"test", ⟨[1, 0, 0]⟩, "example.com"⟩, .ver ⟨[1]⟩, epoch,
    [("/IceflowRE/unidown/master/README.rst", ⟨"One", ⟨2001, 1, 1, 1, 1, 1, 0⟩⟩)]⟩

/-- Claim C3 (code bug): deserializing the serialization of the valid
savestate `c3Input` yields a savestate whose `version` is the raw string
"1" instead of the Version it started from — `from_protobuf` never parses
`proto.version` back — so `deserialize(serialize(s)) == s` is False even
though every other field round-trips. -/
theorem c3_roundtrip_bug :
    PluginsData.SaveState.from_protobuf (PluginsData.SaveState.to_protobuf c3Input) =
      .ok ⟨⟨"test", ⟨[1, 0, 0]⟩, "example.com"⟩, .str "1", epoch,
        [("/IceflowRE/unidown/master/README.rst", ⟨"One", ⟨2001, 1, 1, 1, 1, 1, 0⟩⟩)]⟩ ∧
    PluginsData.SaveState.pyEq
      ⟨⟨"test", ⟨[1, 0, 0]⟩, "example.com"⟩, .str "1", epoch,
        [("/IceflowRE/unidown/master/README.rst", ⟨"One", ⟨2001, 1, 1, 1, 1, 1, 0⟩⟩)]⟩
      c3Input = false := by
  constructor
  · rfl
  · rfl

theorem length_filter_le_of_imp {α : Type} (p q : α → Bool) (l : List α)
    (himp : ∀ a, q a = true → p a = true) :
    (l.filter q).length ≤ (l.filter p).length := by
  induction l with
  | nil => simp
  | cons x rest ih =>
    rw [List.filter_cons, List.filter_cons]
    by_cases hq : q x
    · rw [if_pos hq, if_pos (himp x hq)]
      simpa using ih
    · rw [if_neg hq]
      by_cases hp : p x
      · rw [if_pos hp]
        exact le_trans ih (Nat.le_succ _)
      · rw [if_neg hp]
        exact ih

theorem length_filter_lt_of_witness {α : Type} (p q : α → Bool) (l : List α)
    (himp : ∀ a, q a = true → p a = true) (a : α) (ha : a ∈ l)
    (hpa : p a = true) (hqa : q a = false) :
    (l.filter q).length < (l.filter p).length := by
  induction l with
  | nil => cases ha
  | cons x rest ih =>
    rw [List.filter_cons, List.filter_cons]
    rcases List.mem_cons.mp ha with rfl | hmem
    · rw [if_pos hpa, if_neg (by simp [hqa])]
      exact Nat.lt_succ_of_le (length_filter_le_of_imp p q rest himp)
    · by_cases hq : q x
      · rw [if_pos hq, if_pos (himp x hq)]
        simpa using ih hmem
      · rw [if_neg hq]
        by_cases hp : p x
        · rw [if_pos hp]
          exact Nat.lt_succ_of_lt (ih hmem)
        · rw [if_neg hp]
          exact ih hmem

theorem collisionCount_append_lt (disk : List String) (name : String)
    (hmem : name ∈ disk) :
    collisionCount disk (name ++ "_d") < collisionCount disk name := by
  apply length_filter_lt_of_witness
    (fun s => decide (name.length ≤ s.length))
    (fun s => decide ((name ++ "_d").length ≤ s.length)) disk ?_ name hmem ?_ ?_
  · intro a h
    simp only [decide_eq_true_eq] at h ⊢
    rw [String.length_append] at h
    omega
  · simp
  · simp only [decide_eq_false_iff_not, String.length_append]
    have h2 : ("_d" : String).length = 2 := rfl
    omega

theorem resolveName_not_mem :
    ∀ (fuel : Nat) (disk : List String) (name : String),
      collisionCount disk name < fuel → resolveName fuel disk name ∉ disk := by
  intro fuel
  induction fuel with
  | zero =>
    intro disk name h
    exact absurd h (Nat.not_lt_zero _)
  | succ n ih =>
    intro disk name h
    rw [resolveName]
    by_cases hmem : name ∈ disk
    · rw [if_pos hmem]
      apply ih
      have hlt := collisionCount_append_lt disk name hmem
      omega
    · rw [if_neg hmem]
      exact hmem

/-- Claim C7: `download_as_file` never overwrites — the name it writes to
is never one already present in the folder (the `_d` suffix is appended
until a fresh name is found) — and downloading the same target name three
times in a row produces exactly the files `file`, `file_d`, `file_d_d`
when the folder starts empty, respectively adds `file_d`, `file_d_d`,
`file_d_d_d` next to a pre-existing `file`. -/
theorem c7_collision_names :
    (∀ (disk : List String) (name : String),
      disk.contains (writtenName disk name) = false) ∧
    download_step (download_step (download_step [] "file") "file") "file" =
      ["file", "file_d", "file_d_d"] ∧
    download_step (download_step (download_step ["file"] "file") "file") "file" =
      ["file", "file_d", "file_d_d", "file_d_d_d"] := by
  refine ⟨?_, by decide, by decide⟩
  intro disk name
  have h := resolveName_not_mem (collisionCount disk name + 1) disk name
    (Nat.lt_succ_self _)
  simp [writtenName, List.contains, List.elem_eq_mem, h]
